import Mathlib

/-!
Shallow embedding of the retry/dead-letter subsystem of the demo-rabbitMQ
repository (examples/retry/consumer.py and examples/retry/monitor.py).

Broker interactions are modelled as an explicit trace of actions; the
channel is a record carrying the is_open flag; time values
(time.time(), datetime.now().isoformat()) are passed in as parameters.
Each Python function returns its Python return value paired with the
list of broker actions it performed, in order.
-/

/-- Python str.lower restricted to the ASCII contents used here. -/
def pyLower (s : String) : String := String.mk (s.toList.map Char.toLower)

def hasPrefixL : List Char → List Char → Bool
  | [], _ => true
  | _ :: _, [] => false
  | a :: as, b :: bs => a == b && hasPrefixL as bs

def hasInfixL : List Char → List Char → Bool
  | [], pat => pat.isEmpty
  | l@(_ :: rest), pat => hasPrefixL pat l || hasInfixL rest pat

/-- Python "pat in hay" substring test. -/
def strContains (hay pat : String) : Bool := hasInfixL hay.toList pat.toList

/-- Python s[:n] slicing on strings. -/
def pyTruncate (s : String) (n : Nat) : String := String.mk (s.toList.take n)

/-- A single ASCII apostrophe, as produced by Python str(KeyError(k)). -/
def apos : String := String.singleton (Char.ofNat 39)

/-- AMQP header values: the code only ever stores ints and strings. -/
inductive HVal where
  | int (n : Int)
  | str (s : String)
deriving DecidableEq, Repr

/-- Python int(v) on a header value; none models a raised ValueError. -/
def hvalToInt : HVal → Option Int
  | .int n => some n
  | .str s => s.toInt?

abbrev HeaderList := List (String × HVal)

/-- The delivery method: routing key and delivery tag. -/
structure Method where
  routing_key : String
  delivery_tag : Nat
deriving DecidableEq, Repr

/-- Incoming pika.BasicProperties (the fields this code reads). -/
structure Properties where
  headers : Option HeaderList
  correlation_id : Option String
  reply_to : Option String
  content_type : Option String
deriving DecidableEq, Repr

/-- The pika.BasicProperties built for a basic_publish call: all fields
not passed to the constructor default to none. -/
structure PubProps where
  headers : HeaderList
  delivery_mode : Nat
  correlation_id : Option String
  reply_to : Option String
  content_type : Option String
deriving DecidableEq, Repr

/-- The raw message body as seen by json.loads: either malformed JSON
(with the JSONDecodeError text) or a JSON object with string fields. -/
inductive Body where
  | invalid (err : String)
  | obj (fields : List (String × String))
deriving DecidableEq, Repr

/-- The channel: ambient broker session state, read through is_open. -/
structure Channel where
  is_open : Bool
deriving DecidableEq, Repr

/-- One observable broker interaction (or function-entry marker). -/
inductive Act where
  | exchangeDeclare (exchange ty : String)
  | queueDeclare (queue : String) (durable : Bool)
      (ttlMillis : Option Nat) (dlExchange dlRoutingKey : Option String)
  | queueBind (exchange queue routingKey : String)
  | publish (exchange routingKey : String) (body : Body) (props : PubProps)
  | retryCall (retryCount : Int)
  | dlqCall (reason : String)
  | ackAttempt (deliveryTag : Nat) (performed : Bool)
deriving DecidableEq, Repr

/-! Retry configuration constants (consumer.py lines 16-18). -/

def MAX_RETRY_ATTEMPTS : Int := 3
def INITIAL_RETRY_DELAY : Nat := 1
def BACKOFF_MULTIPLIER : Nat := 2

/-- delay = INITIAL_RETRY_DELAY * (BACKOFF_MULTIPLIER ** retry_count),
consumer.py line 81. -/
def delay_for (retry_count : Nat) : Nat :=
  INITIAL_RETRY_DELAY * BACKOFF_MULTIPLIER ^ retry_count

/-- process_message (consumer.py lines 31-62). Returns success for True,
transientRet for False (the caught-and-swallowed exceptions), raised m
for the re-raised ValueError. randomFail resolves random.random() < 0.5. -/
inductive Outcome where
  | success
  | transientRet
  | raised (msg : String)
deriving DecidableEq, Repr

def process_message (content : String) (randomFail : Bool) : Outcome :=
  let c := pyLower content
  if strContains c "critical_error" then
    .raised "Critical error - should not retry"
  else if strContains c "temporary_error" then
    .transientRet
  else if strContains c "random_fail" then
    (if randomFail then .transientRet else .success)
  else
    .success

/-- get_retry_count (consumer.py lines 64-68); none models int() raising
on a non-numeric string header value. -/
def get_retry_count (headers : Option HeaderList) : Option Int :=
  match headers with
  | some hs =>
    match hs.lookup "x-retry-count" with
    | some v => hvalToInt v
    | none => some 0
  | none => some 0

/-- send_to_retry_queue (consumer.py lines 70-125): returns the Python
return value and the broker actions performed. -/
def send_to_retry_queue (ch : Channel) (method : Method)
    (properties : Properties) (body : Body) (retry_count : Int) :
    Bool × List Act :=
  if !ch.is_open then
    (false, [.retryCall retry_count])
  else
    let exchange_name := "direct_logs_retry"
    let delay := delay_for retry_count.toNat
    let headers : HeaderList :=
      [("x-retry-count", .int (retry_count + 1)),
       ("x-original-routing-key", .str method.routing_key),
       ("x-retry-delay", .int delay)]
    let retry_queue_name := "retry_queue_" ++ toString delay ++ "s"
    (true,
     [.retryCall retry_count,
      .exchangeDeclare exchange_name "direct",
      .queueDeclare retry_queue_name true (some (delay * 1000))
        (some "direct_logs") (some method.routing_key),
      .queueBind exchange_name retry_queue_name method.routing_key,
      .publish exchange_name method.routing_key body
        ⟨headers, 2, properties.correlation_id, properties.reply_to, none⟩])

/-- safe_ack (consumer.py lines 127-138): the attempt is always made;
performed records whether basic_ack actually ran. -/
def safe_ack (ch : Channel) (delivery_tag : Nat) : Bool × List Act :=
  (ch.is_open, [.ackAttempt delivery_tag ch.is_open])

/-- send_to_dead_letter_queue (consumer.py lines 140-188). now and
nowIso stand for time.time() and datetime.now().isoformat(). The
(false, setup) branch models int() raising on a non-numeric
x-retry-count header, caught by the enclosing except. -/
def send_to_dead_letter_queue (ch : Channel) (method : Method)
    (properties : Properties) (body : Body) (error_message : String)
    (now : Int) (nowIso : String) : Bool × List Act :=
  if !ch.is_open then
    (false, [.dlqCall error_message])
  else
    let exchange_name := "direct_logs_dlq"
    let queue_name := "dead_letter_queue"
    let setup : List Act :=
      [.dlqCall error_message,
       .exchangeDeclare exchange_name "direct",
       .queueDeclare queue_name true none none none,
       .queueBind exchange_name queue_name method.routing_key]
    let headers : HeaderList :=
      [("x-death-reason", .str (pyTruncate error_message 1000)),
       ("x-death-timestamp", .int now),
       ("x-death-datetime", .str nowIso),
       ("x-original-routing-key", .str method.routing_key)]
    match properties.headers with
    | some hs =>
      match hs.lookup "x-retry-count" with
      | some v =>
        match hvalToInt v with
        | some n =>
          (true, setup ++
            [.publish exchange_name method.routing_key body
              ⟨headers ++ [("x-retry-count", .int n)], 2,
               properties.correlation_id, properties.reply_to, none⟩])
        | none => (false, setup)
      | none =>
        (true, setup ++
          [.publish exchange_name method.routing_key body
            ⟨headers, 2, properties.correlation_id, properties.reply_to,
             none⟩])
    | none =>
      (true, setup ++
        [.publish exchange_name method.routing_key body
          ⟨headers, 2, properties.correlation_id, properties.reply_to,
           none⟩])

/-- callback (consumer.py lines 190-251). randomFail feeds
process_message; now and nowIso feed the dead-letter sink. The result
is the trace of broker actions performed, in order. -/
def callback (ch : Channel) (method : Method) (properties : Properties)
    (body : Body) (randomFail : Bool) (now : Int) (nowIso : String) :
    List Act :=
  let ackA : List Act := (safe_ack ch method.delivery_tag).2
  match body with
  | .invalid err =>
    -- json.JSONDecodeError handler, lines 240-245
    (send_to_dead_letter_queue ch method properties body
      ("Invalid JSON: " ++ err) now nowIso).2 ++ ackA
  | .obj fields =>
    match get_retry_count properties.headers with
    | none =>
      -- int() raised inside get_retry_count: outer handler, lines 246-251
      (send_to_dead_letter_queue ch method properties body
        ("Unexpected error: invalid literal for int() with base 10")
        now nowIso).2 ++ ackA
    | some retry_count =>
      match fields.lookup "content" with
      | none =>
        -- KeyError at the print on line 196: outer handler
        (send_to_dead_letter_queue ch method properties body
          ("Unexpected error: " ++ apos ++ "content" ++ apos) now nowIso).2
          ++ ackA
      | some content =>
        match fields.lookup "timestamp" with
        | none =>
          -- KeyError at the print on line 197: outer handler
          (send_to_dead_letter_queue ch method properties body
            ("Unexpected error: " ++ apos ++ "timestamp" ++ apos) now
            nowIso).2 ++ ackA
        | some _ =>
          match process_message content randomFail with
          | .success => ackA
          | .transientRet =>
            if retry_count < MAX_RETRY_ATTEMPTS then
              -- retry_success = send_to_retry_queue(...); the pure call
              -- is referred to twice instead of being let-bound
              if (send_to_retry_queue ch method properties body
                  retry_count).1 then
                (send_to_retry_queue ch method properties body
                  retry_count).2 ++ ackA
              else
                ((send_to_retry_queue ch method properties body
                    retry_count).2 ++
                  (send_to_dead_letter_queue ch method properties body
                    ("Retry queue failed after " ++ toString retry_count
                      ++ " attempts") now nowIso).2) ++ ackA
            else
              (send_to_dead_letter_queue ch method properties body
                "Max retry attempts exceeded" now nowIso).2 ++ ackA
          | .raised m =>
            -- inner except handler, lines 222-226
            (send_to_dead_letter_queue ch method properties body m now
              nowIso).2 ++ ackA

/-! Queue Inspector (monitor.py). The broker is a map from queue name to
the passive queue_declare outcome: message count or a raised error. -/

def get_queue_info (broker : String → Except String Nat)
    (queue_name : String) : Option Nat :=
  match broker queue_name with
  | .ok message_count => some message_count
  | .error _ => none

/-- queues_to_check (monitor.py lines 35-41). -/
def queues_to_check : List String :=
  ["dead_letter_queue", "retry_queue_1s", "retry_queue_2s",
   "retry_queue_4s", "retry_queue_8s"]

/-- The per-queue rows printed by list_queues (monitor.py lines 47-52). -/
def list_queues_rows (broker : String → Except String Nat) :
    List String → List (String × String)
  | [] => []
  | queue_name :: rest =>
    (match get_queue_info broker queue_name with
     | some count => (queue_name, toString count)
     | none => (queue_name, "N/A")) :: list_queues_rows broker rest

def list_queues (broker : String → Except String Nat) :
    List (String × String) :=
  list_queues_rows broker queues_to_check

/-! Trace extraction helpers. -/

def isAck : Act → Bool
  | .ackAttempt _ _ => true
  | _ => false

def ackCount (tr : List Act) : Nat := (tr.filter isAck).length

def dlqCallsOf (tr : List Act) : List String :=
  tr.filterMap fun a =>
    match a with
    | .dlqCall r => some r
    | _ => none

def retryCallsOf (tr : List Act) : List Int :=
  tr.filterMap fun a =>
    match a with
    | .retryCall n => some n
    | _ => none

def publishesOf (tr : List Act) : List Act :=
  tr.filter fun a =>
    match a with
    | .publish _ _ _ _ => true
    | _ => false

def retryPublishProps (tr : List Act) : List PubProps :=
  tr.filterMap fun a =>
    match a with
    | .publish ex _ _ p =>
      if ex = "direct_logs_retry" then some p else none
    | _ => none

def dlqPublishProps (tr : List Act) : List PubProps :=
  tr.filterMap fun a =>
    match a with
    | .publish ex _ _ p =>
      if ex = "direct_logs_dlq" then some p else none
    | _ => none

def queueDeclaresOf (tr : List Act) : List Act :=
  tr.filter fun a =>
    match a with
    | .queueDeclare _ _ _ _ _ => true
    | _ => false

/-! Broker redelivery model for the TTL/dead-letter delay trick: a
message published to the holding queue reappears, after expiry, on the
origin exchange under the holding queue's dead-letter routing key, with
the headers and properties of the republished message. -/

def holdingDlrk (tr : List Act) : Option String :=
  tr.findSome? fun a =>
    match a with
    | .queueDeclare _ _ _ _ dlrk => dlrk
    | _ => none

def firstRetryPub (tr : List Act) : Option PubProps :=
  tr.findSome? fun a =>
    match a with
    | .publish ex _ _ p =>
      if ex = "direct_logs_retry" then some p else none
    | _ => none

/-- Repeated delivery of one message: run callback, and while it
republishes to the retry exchange, redeliver with the republished
headers under the holding queue's dead-letter routing key. -/
def runChain (ch : Channel) (body : Body) (randomFail : Bool) (now : Int)
    (nowIso : String) : Nat → Method → Properties → List (List Act)
  | 0, _, _ => []
  | Nat.succ fuel, method, properties =>
    let tr := callback ch method properties body randomFail now nowIso
    match holdingDlrk tr, firstRetryPub tr with
    | some rk, some p =>
      tr :: runChain ch body randomFail now nowIso fuel
        ⟨rk, method.delivery_tag + 1⟩
        ⟨some p.headers, p.correlation_id, p.reply_to, p.content_type⟩
    | _, _ => [tr]

/-! Sanity checks of the embedding on concrete inputs. -/

example : process_message "please Temporary_Error now" false = .transientRet := by
  decide

example : process_message "hello" true = .success := by decide

example :
    process_message "CRITICAL_ERROR ahead" true =
      .raised "Critical error - should not retry" := by decide

example : get_retry_count (some [("x-retry-count", .int 2)]) = some 2 := by
  decide

example : get_retry_count none = some 0 := by decide

/-! Concrete run: a message whose content repeatedly triggers the
transient-failure branch, starting with no retry headers. -/

def c1Chain : List (List Act) :=
  runChain ⟨true⟩ (Body.obj [("content", "temporary_error"), ("timestamp", "t")])
    false 1700000000 "2025-06-01T00:00:00" 10 ⟨"error", 1⟩ ⟨none, none, none, none⟩

def c1Trace : List Act := c1Chain.flatten

/-- C1: a message that repeatedly yields the transient-retry signal is
escalated exactly 3 = MAX_RETRY_ATTEMPTS times, with computed delays
1s, 2s, 4s in that order, and on the next failure it is dead-lettered
with reason "Max retry attempts exceeded" and a dead-letter record whose
x-retry-count equals 3. -/
theorem retry_escalation_ceiling :
    c1Chain.length = 4 ∧
    (retryPublishProps c1Trace).length = 3 ∧
    (retryPublishProps c1Trace).map (fun p => p.headers.lookup "x-retry-delay")
      = [some (.int 1), some (.int 2), some (.int 4)] ∧
    dlqCallsOf c1Trace = ["Max retry attempts exceeded"] ∧
    (dlqPublishProps c1Trace).map (fun p => p.headers.lookup "x-retry-count")
      = [some (.int 3)] := by decide

/-- C2: the retry delay is the deterministic function
delay(n) = INITIAL_RETRY_DELAY * BACKOFF_MULTIPLIER ^ n of the attempt
count, in whole seconds, strictly increasing in n (the multiplier is 2),
and it is exactly the x-retry-delay the scheduler publishes. -/
theorem backoff_delay_formula (n : Nat) (method : Method)
    (properties : Properties) (body : Body) :
    delay_for n = INITIAL_RETRY_DELAY * BACKOFF_MULTIPLIER ^ n ∧
    delay_for n < delay_for (n + 1) ∧
    (retryPublishProps (send_to_retry_queue ⟨true⟩ method properties body
        (n : Int)).2).map (fun p => p.headers.lookup "x-retry-delay")
      = [some (.int (delay_for n))] := by
  refine ⟨rfl, ?_, ?_⟩
  · show INITIAL_RETRY_DELAY * BACKOFF_MULTIPLIER ^ n
        < INITIAL_RETRY_DELAY * BACKOFF_MULTIPLIER ^ (n + 1)
    simp only [INITIAL_RETRY_DELAY, BACKOFF_MULTIPLIER, one_mul]
    exact Nat.pow_lt_pow_succ (by norm_num)
  · rfl

/-- C8: across a whole escalation chain, every retry republication
carries the same x-original-routing-key, namely the routing key the
message was first delivered with. -/
theorem original_routing_key_preserved (rk ts iso : String) (tag : Nat)
    (now : Int) (rf : Bool) (corr rep ct : Option String) :
    (retryPublishProps ((runChain ⟨true⟩
        (Body.obj [("content", "temporary_error"), ("timestamp", ts)])
        rf now iso 10 ⟨rk, tag⟩ ⟨none, corr, rep, ct⟩).flatten)).map
      (fun p => p.headers.lookup "x-original-routing-key")
    = [some (.str rk), some (.str rk), some (.str rk)] := by
  rfl

/-! Queue Inspector lemmas. -/

lemma list_queues_rows_fst (broker : String → Except String Nat)
    (qs : List String) :
    (list_queues_rows broker qs).map Prod.fst = qs := by
  induction qs with
  | nil => rfl
  | cons q rest ih =>
    cases h : get_queue_info broker q <;> simp [list_queues_rows, h, ih]

lemma list_queues_rows_mem (broker : String → Except String Nat)
    (qs : List String) :
    ∀ p ∈ list_queues_rows broker qs,
      (∃ n, get_queue_info broker p.1 = some n ∧ p.2 = toString n) ∨
      (get_queue_info broker p.1 = none ∧ p.2 = "N/A") := by
  induction qs with
  | nil => intro p hp; simp [list_queues_rows] at hp
  | cons q rest ih =>
    intro p hp
    cases h : get_queue_info broker q with
    | none =>
      simp only [list_queues_rows, h, List.mem_cons] at hp
      rcases hp with rfl | hp
      · right; exact ⟨h, rfl⟩
      · exact ih p hp
    | some n =>
      simp only [list_queues_rows, h, List.mem_cons] at hp
      rcases hp with rfl | hp
      · left; exact ⟨n, h, rfl⟩
      · exact ih p hp

/-- C9: the depth query returns the queue's message count exactly when
the per-queue passive declare succeeds and the unavailable marker "N/A"
when it fails; an individual failure never drops any of the fixed queue
names from the report. -/
theorem monitor_depth_report (broker : String → Except String Nat) :
    (∀ q n, get_queue_info broker q = some n ↔ broker q = .ok n) ∧
    (list_queues broker).map Prod.fst = queues_to_check ∧
    (∀ p ∈ list_queues broker,
      (∃ n, get_queue_info broker p.1 = some n ∧ p.2 = toString n) ∨
      (get_queue_info broker p.1 = none ∧ p.2 = "N/A")) := by
  refine ⟨?_, list_queues_rows_fst broker queues_to_check,
    list_queues_rows_mem broker queues_to_check⟩
  intro q n
  cases h : broker q <;> simp [get_queue_info, h]

def brokerW : String → Except String Nat := fun q =>
  if q = "dead_letter_queue" then .ok 5 else .error "NOT_FOUND"

/-- Witness for C9 at a concrete broker state. -/
theorem monitor_depth_report_witness :
    (∃ n, get_queue_info brokerW "retry_queue_1s" = some n
        ∧ "N/A" = toString n) ∨
    (get_queue_info brokerW "retry_queue_1s" = none ∧ "N/A" = "N/A") :=
  (monitor_depth_report brokerW).2.2 ("retry_queue_1s", "N/A") (by decide)

/-! Acknowledge-totality helpers. -/

lemma ackCount_append (l1 l2 : List Act) :
    ackCount (l1 ++ l2) = ackCount l1 + ackCount l2 := by
  simp [ackCount, List.filter_append]

lemma last_append_singleton (l : List Act) (a : Act) :
    (l ++ [a]).getLast? = some a := by
  simp [List.getLast?_append]

lemma ackCount_retry (ch : Channel) (method : Method)
    (properties : Properties) (body : Body) (rc : Int) :
    ackCount (send_to_retry_queue ch method properties body rc).2 = 0 := by
  unfold send_to_retry_queue
  rcases ch with ⟨o⟩
  cases o <;> rfl

lemma ackCount_dlq (ch : Channel) (method : Method)
    (properties : Properties) (body : Body) (em : String) (now : Int)
    (iso : String) :
    ackCount (send_to_dead_letter_queue ch method properties body em now
      iso).2 = 0 := by
  unfold send_to_dead_letter_queue
  repeat' split
  all_goals rfl

lemma callback_shape (ch : Channel) (method : Method)
    (properties : Properties) (body : Body) (rf : Bool) (now : Int)
    (iso : String) :
    ∃ pre, callback ch method properties body rf now iso
        = pre ++ [Act.ackAttempt method.delivery_tag ch.is_open] ∧
      ackCount pre = 0 := by
  unfold callback safe_ack
  cases body with
  | invalid err => exact ⟨_, rfl, ackCount_dlq ch method properties _ _ now iso⟩
  | obj fields =>
    repeat' split
    all_goals
      first
      | exact ⟨_, rfl, ackCount_dlq ch method properties _ _ now iso⟩
      | exact ⟨[], rfl, rfl⟩
      | exact ⟨_, rfl, ackCount_retry ch method properties _ _⟩
      | exact ⟨_, rfl, by
          simp [ackCount_append, ackCount_retry, ackCount_dlq]⟩

/-- C4: for every message entering the handler, exactly one guarded
acknowledge attempt is made, and it is the last action of whichever
branch was taken. -/
theorem ack_totality (ch : Channel) (method : Method)
    (properties : Properties) (body : Body) (rf : Bool) (now : Int)
    (iso : String) :
    ackCount (callback ch method properties body rf now iso) = 1 ∧
    (callback ch method properties body rf now iso).getLast?
      = some (.ackAttempt method.delivery_tag ch.is_open) := by
  obtain ⟨pre, he, h0⟩ := callback_shape ch method properties body rf now iso
  rw [he]
  constructor
  · rw [ackCount_append, h0]; rfl
  · exact last_append_singleton pre _

/-! Dead-letter / retry call extraction lemmas. -/

lemma retryCallsOf_append (l1 l2 : List Act) :
    retryCallsOf (l1 ++ l2) = retryCallsOf l1 ++ retryCallsOf l2 := by
  simp [retryCallsOf]

lemma dlqCallsOf_append (l1 l2 : List Act) :
    dlqCallsOf (l1 ++ l2) = dlqCallsOf l1 ++ dlqCallsOf l2 := by
  simp [dlqCallsOf]

lemma dlqCalls_dlq (ch : Channel) (method : Method)
    (properties : Properties) (body : Body) (em : String) (now : Int)
    (iso : String) :
    dlqCallsOf (send_to_dead_letter_queue ch method properties body em now
      iso).2 = [em] := by
  unfold send_to_dead_letter_queue
  repeat' split
  all_goals rfl

lemma retryCalls_dlq (ch : Channel) (method : Method)
    (properties : Properties) (body : Body) (em : String) (now : Int)
    (iso : String) :
    retryCallsOf (send_to_dead_letter_queue ch method properties body em
      now iso).2 = [] := by
  unfold send_to_dead_letter_queue
  repeat' split
  all_goals rfl

lemma retryCalls_ack (t : Nat) (b : Bool) :
    retryCallsOf [Act.ackAttempt t b] = [] := rfl

lemma dlqCalls_ack (t : Nat) (b : Bool) :
    dlqCallsOf [Act.ackAttempt t b] = [] := rfl

/-- C3: a raised (permanent) processing error, a message body that fails
to parse, and an unexpected error are all diverted to the dead-letter
sink on that very encounter, whatever the current attempt count, with
reasons prefixed "Invalid JSON:" and "Unexpected error:" in the parse and
unexpected cases; the retry scheduler is never invoked on these paths. -/
theorem no_retry_for_permanent_classes (ch : Channel) (method : Method)
    (properties : Properties) (rf : Bool) (now : Int) (iso : String) :
    (∀ err : String,
      retryCallsOf (callback ch method properties (.invalid err) rf now
        iso) = [] ∧
      dlqCallsOf (callback ch method properties (.invalid err) rf now iso)
        = ["Invalid JSON: " ++ err]) ∧
    (∀ (fields : List (String × String)) (content ts : String) (rc : Int)
        (m : String),
      get_retry_count properties.headers = some rc →
      fields.lookup "content" = some content →
      fields.lookup "timestamp" = some ts →
      process_message content rf = .raised m →
      retryCallsOf (callback ch method properties (.obj fields) rf now
        iso) = [] ∧
      dlqCallsOf (callback ch method properties (.obj fields) rf now iso)
        = [m]) ∧
    (∀ (fields : List (String × String)) (rc : Int),
      get_retry_count properties.headers = some rc →
      fields.lookup "content" = none →
      retryCallsOf (callback ch method properties (.obj fields) rf now
        iso) = [] ∧
      dlqCallsOf (callback ch method properties (.obj fields) rf now iso)
        = ["Unexpected error: " ++ apos ++ "content" ++ apos]) := by
  refine ⟨?_, ?_, ?_⟩
  · intro err
    constructor <;>
      simp [callback, safe_ack, retryCallsOf_append, dlqCallsOf_append,
        retryCalls_dlq, dlqCalls_dlq, retryCalls_ack, dlqCalls_ack]
  · intro fields content ts rc m hrc hc ht hm
    constructor <;>
      simp [callback, safe_ack, hrc, hc, ht, hm, retryCallsOf_append,
        dlqCallsOf_append, retryCalls_dlq, dlqCalls_dlq, retryCalls_ack,
        dlqCalls_ack]
  · intro fields rc hrc hc
    constructor <;>
      simp [callback, safe_ack, hrc, hc, retryCallsOf_append,
        dlqCallsOf_append, retryCalls_dlq, dlqCalls_dlq, retryCalls_ack,
        dlqCalls_ack]

/-- Witness for C3 at concrete inputs: a malformed body, a permanent
critical_error message at attempt count 2, and an object missing its
content field. -/
theorem no_retry_for_permanent_classes_witness :
    (retryCallsOf (callback ⟨true⟩ ⟨"error", 1⟩ ⟨none, none, none, none⟩
        (.invalid "Expecting value") false 0 "t") = [] ∧
      dlqCallsOf (callback ⟨true⟩ ⟨"error", 1⟩ ⟨none, none, none, none⟩
        (.invalid "Expecting value") false 0 "t")
        = ["Invalid JSON: " ++ "Expecting value"]) ∧
    (retryCallsOf (callback ⟨true⟩ ⟨"error", 1⟩
        ⟨some [("x-retry-count", .int 2)], none, none, none⟩
        (.obj [("content", "critical_error"), ("timestamp", "t")]) false 0
        "t") = [] ∧
      dlqCallsOf (callback ⟨true⟩ ⟨"error", 1⟩
        ⟨some [("x-retry-count", .int 2)], none, none, none⟩
        (.obj [("content", "critical_error"), ("timestamp", "t")]) false 0
        "t") = ["Critical error - should not retry"]) ∧
    (retryCallsOf (callback ⟨true⟩ ⟨"error", 1⟩ ⟨none, none, none, none⟩
        (.obj [("timestamp", "t")]) false 0 "t") = [] ∧
      dlqCallsOf (callback ⟨true⟩ ⟨"error", 1⟩ ⟨none, none, none, none⟩
        (.obj [("timestamp", "t")]) false 0 "t")
        = ["Unexpected error: " ++ apos ++ "content" ++ apos]) :=
  ⟨(no_retry_for_permanent_classes ⟨true⟩ ⟨"error", 1⟩
      ⟨none, none, none, none⟩ false 0 "t").1 "Expecting value",
   (no_retry_for_permanent_classes ⟨true⟩ ⟨"error", 1⟩
      ⟨some [("x-retry-count", .int 2)], none, none, none⟩ false 0 "t").2.1
      [("content", "critical_error"), ("timestamp", "t")]
      "critical_error" "t" 2 "Critical error - should not retry"
      (by decide) (by decide) (by decide) (by decide),
   (no_retry_for_permanent_classes ⟨true⟩ ⟨"error", 1⟩
      ⟨none, none, none, none⟩ false 0 "t").2.2 [("timestamp", "t")] 0
      (by decide) (by decide)⟩

/-- C5 counterexample: with the channel closed and a transient failure at
attempt count 0, the fallback dead-letter reason recorded by the code is
"Retry queue failed after 0 attempts", not the claimed
"retry scheduling failed." -/
theorem closed_channel_fallback_reason_counterexample :
    dlqCallsOf (callback ⟨false⟩ ⟨"error", 1⟩ ⟨none, none, none, none⟩
        (.obj [("content", "temporary_error"), ("timestamp", "t")]) false 0
        "t") = ["Retry queue failed after 0 attempts"] ∧
    "retry scheduling failed." ∉
      dlqCallsOf (callback ⟨false⟩ ⟨"error", 1⟩ ⟨none, none, none, none⟩
        (.obj [("content", "temporary_error"), ("timestamp", "t")]) false 0
        "t") := by decide

/-- C5 (amended): when the channel is closed the fallback chain is total
and silent: the escalation attempt returns false instead of raising, the
caller falls back to the dead-letter sink with reason
"Retry queue failed after <attemptCount> attempts", the dead-letter sink
itself returns false (Lost) while the channel stays closed, nothing is
published, and the handler still ends in its guarded acknowledge
attempt. -/
theorem closed_channel_fallback_chain (method : Method)
    (properties : Properties) (fields : List (String × String))
    (content ts : String) (rc : Int) (rf : Bool) (now : Int) (iso : String)
    (hrc : get_retry_count properties.headers = some rc)
    (hc : fields.lookup "content" = some content)
    (ht : fields.lookup "timestamp" = some ts)
    (hm : process_message content rf = .transientRet)
    (hlt : rc < MAX_RETRY_ATTEMPTS) :
    (send_to_retry_queue ⟨false⟩ method properties (.obj fields) rc).1
      = false ∧
    (send_to_dead_letter_queue ⟨false⟩ method properties (.obj fields)
      ("Retry queue failed after " ++ toString rc ++ " attempts") now
      iso).1 = false ∧
    dlqCallsOf (callback ⟨false⟩ method properties (.obj fields) rf now
      iso) = ["Retry queue failed after " ++ toString rc ++ " attempts"] ∧
    publishesOf (callback ⟨false⟩ method properties (.obj fields) rf now
      iso) = [] ∧
    (callback ⟨false⟩ method properties (.obj fields) rf now iso).getLast?
      = some (.ackAttempt method.delivery_tag false) := by
  refine ⟨rfl, rfl, ?_, ?_, ?_⟩ <;>
    simp [callback, safe_ack, send_to_retry_queue,
      send_to_dead_letter_queue, hrc, hc, ht, hm, hlt, dlqCallsOf,
      publishesOf, List.getLast?_append]

/-- Witness for C5 (amended) at a concrete closed-channel delivery. -/
theorem closed_channel_fallback_chain_witness :
    (send_to_retry_queue ⟨false⟩ ⟨"warning", 7⟩ ⟨none, none, none, none⟩
      (.obj [("content", "temporary_error"), ("timestamp", "t")]) 0).1
      = false ∧
    (send_to_dead_letter_queue ⟨false⟩ ⟨"warning", 7⟩
      ⟨none, none, none, none⟩
      (.obj [("content", "temporary_error"), ("timestamp", "t")])
      ("Retry queue failed after " ++ toString (0 : Int) ++ " attempts") 0
      "t").1 = false ∧
    dlqCallsOf (callback ⟨false⟩ ⟨"warning", 7⟩ ⟨none, none, none, none⟩
      (.obj [("content", "temporary_error"), ("timestamp", "t")]) true 0
      "t") = ["Retry queue failed after " ++ toString (0 : Int)
        ++ " attempts"] ∧
    publishesOf (callback ⟨false⟩ ⟨"warning", 7⟩ ⟨none, none, none, none⟩
      (.obj [("content", "temporary_error"), ("timestamp", "t")]) true 0
      "t") = [] ∧
    (callback ⟨false⟩ ⟨"warning", 7⟩ ⟨none, none, none, none⟩
      (.obj [("content", "temporary_error"), ("timestamp", "t")]) true 0
      "t").getLast? = some (.ackAttempt 7 false) :=
  closed_channel_fallback_chain ⟨"warning", 7⟩ ⟨none, none, none, none⟩
    [("content", "temporary_error"), ("timestamp", "t")] "temporary_error"
    "t" 0 true 0 "t" (by decide) (by decide) (by decide) (by decide)
    (by decide)

/-- C6: each escalation declares the holding queue retry_queue_<d>s with
time-to-live d*1000 ms, dead-letter exchange the origin exchange
direct_logs and dead-letter routing key the message's routing key; the
holding queue name is a function of the delay value alone, and two
escalations computing the same delay under the same routing key issue
the identical declaration. -/
theorem holding_queue_declaration (ch : Channel) (h : ch.is_open = true)
    (m1 m2 : Method) (p1 p2 : Properties) (b1 b2 : Body) (n1 n2 : Nat) :
    queueDeclaresOf (send_to_retry_queue ch m1 p1 b1 (n1 : Int)).2
      = [.queueDeclare ("retry_queue_" ++ toString (delay_for n1) ++ "s")
          true (some (delay_for n1 * 1000)) (some "direct_logs")
          (some m1.routing_key)] ∧
    (delay_for n1 = delay_for n2 →
      "retry_queue_" ++ toString (delay_for n1) ++ "s"
        = "retry_queue_" ++ toString (delay_for n2) ++ "s") ∧
    (delay_for n1 = delay_for n2 → m1.routing_key = m2.routing_key →
      queueDeclaresOf (send_to_retry_queue ch m1 p1 b1 (n1 : Int)).2
        = queueDeclaresOf (send_to_retry_queue ch m2 p2 b2 (n2 : Int)).2)
    := by
  rcases ch with ⟨o⟩
  cases o
  · cases h
  · refine ⟨rfl, fun hd => by rw [hd], fun hd hrk => ?_⟩
    show [Act.queueDeclare ("retry_queue_" ++ toString (delay_for n1)
        ++ "s") true (some (delay_for n1 * 1000)) (some "direct_logs")
        (some m1.routing_key)]
      = [Act.queueDeclare ("retry_queue_" ++ toString (delay_for n2)
        ++ "s") true (some (delay_for n2 * 1000)) (some "direct_logs")
        (some m2.routing_key)]
    rw [hd, hrk]

/-- Witness for C6: two distinct messages at the same attempt count and
routing key. -/
theorem holding_queue_declaration_witness :
    queueDeclaresOf (send_to_retry_queue ⟨true⟩ ⟨"error", 1⟩
        ⟨none, none, none, none⟩ (.obj [("content", "a")]) ((2 : Nat) : Int)).2
      = [.queueDeclare ("retry_queue_" ++ toString (delay_for 2) ++ "s")
          true (some (delay_for 2 * 1000)) (some "direct_logs")
          (some "error")] ∧
    ("retry_queue_" ++ toString (delay_for 2) ++ "s"
      = "retry_queue_" ++ toString (delay_for 2) ++ "s") ∧
    queueDeclaresOf (send_to_retry_queue ⟨true⟩ ⟨"error", 1⟩
        ⟨none, none, none, none⟩ (.obj [("content", "a")]) ((2 : Nat) : Int)).2
      = queueDeclaresOf (send_to_retry_queue ⟨true⟩ ⟨"error", 2⟩
        ⟨none, none, none, none⟩ (.obj [("content", "b")]) ((2 : Nat) : Int)).2 :=
  have hth := holding_queue_declaration ⟨true⟩ rfl ⟨"error", 1⟩
    ⟨"error", 2⟩ ⟨none, none, none, none⟩ ⟨none, none, none, none⟩
    (.obj [("content", "a")]) (.obj [("content", "b")]) 2 2
  ⟨hth.1, hth.2.1 rfl, hth.2.2 rfl rfl⟩

/-- C7: every dead-letter record published carries x-death-reason equal
to the reason truncated to at most 1000 characters, x-death-timestamp as
the integer epoch seconds, x-death-datetime as the ISO timestamp string,
x-original-routing-key as a string, and x-retry-count exactly when the
incoming message's headers carried one. -/
theorem dead_letter_record_headers (ch : Channel) (h : ch.is_open = true)
    (method : Method) (properties : Properties) (body : Body)
    (reason : String) (now : Int) (iso : String) :
    (properties.headers = none →
      publishesOf (send_to_dead_letter_queue ch method properties body
          reason now iso).2
        = [.publish "direct_logs_dlq" method.routing_key body
            ⟨[("x-death-reason", .str (pyTruncate reason 1000)),
              ("x-death-timestamp", .int now),
              ("x-death-datetime", .str iso),
              ("x-original-routing-key", .str method.routing_key)], 2,
             properties.correlation_id, properties.reply_to, none⟩]) ∧
    (∀ hs, properties.headers = some hs →
      hs.lookup "x-retry-count" = none →
      publishesOf (send_to_dead_letter_queue ch method properties body
          reason now iso).2
        = [.publish "direct_logs_dlq" method.routing_key body
            ⟨[("x-death-reason", .str (pyTruncate reason 1000)),
              ("x-death-timestamp", .int now),
              ("x-death-datetime", .str iso),
              ("x-original-routing-key", .str method.routing_key)], 2,
             properties.correlation_id, properties.reply_to, none⟩]) ∧
    (∀ hs v n, properties.headers = some hs →
      hs.lookup "x-retry-count" = some v → hvalToInt v = some n →
      publishesOf (send_to_dead_letter_queue ch method properties body
          reason now iso).2
        = [.publish "direct_logs_dlq" method.routing_key body
            ⟨[("x-death-reason", .str (pyTruncate reason 1000)),
              ("x-death-timestamp", .int now),
              ("x-death-datetime", .str iso),
              ("x-original-routing-key", .str method.routing_key),
              ("x-retry-count", .int n)], 2,
             properties.correlation_id, properties.reply_to, none⟩]) ∧
    (pyTruncate reason 1000).length ≤ 1000 := by
  rcases ch with ⟨o⟩
  cases o
  · cases h
  · refine ⟨?_, ?_, ?_, ?_⟩
    · intro hh
      simp [send_to_dead_letter_queue, hh, publishesOf]
    · intro hs hh hl
      simp [send_to_dead_letter_queue, hh, hl, publishesOf]
    · intro hs v n hh hl hv
      simp [send_to_dead_letter_queue, hh, hl, hv, publishesOf]
    · show (reason.toList.take 1000).length ≤ 1000
      exact List.length_take_le _ _

/-- Witness for C7 with and without an incoming retry count. -/
theorem dead_letter_record_headers_witness :
    publishesOf (send_to_dead_letter_queue ⟨true⟩ ⟨"error", 1⟩
        ⟨none, some "cid", some "rq", none⟩ (.obj [("content", "x")])
        "boom" 11 "iso").2
      = [.publish "direct_logs_dlq" "error" (.obj [("content", "x")])
          ⟨[("x-death-reason", .str (pyTruncate "boom" 1000)),
            ("x-death-timestamp", .int 11),
            ("x-death-datetime", .str "iso"),
            ("x-original-routing-key", .str "error")], 2,
           some "cid", some "rq", none⟩] ∧
    publishesOf (send_to_dead_letter_queue ⟨true⟩ ⟨"error", 1⟩
        ⟨some [("x-retry-count", .int 3)], none, none, none⟩
        (.obj [("content", "x")]) "boom" 11 "iso").2
      = [.publish "direct_logs_dlq" "error" (.obj [("content", "x")])
          ⟨[("x-death-reason", .str (pyTruncate "boom" 1000)),
            ("x-death-timestamp", .int 11),
            ("x-death-datetime", .str "iso"),
            ("x-original-routing-key", .str "error"),
            ("x-retry-count", .int 3)], 2, none, none, none⟩] :=
  ⟨(dead_letter_record_headers ⟨true⟩ rfl ⟨"error", 1⟩
      ⟨none, some "cid", some "rq", none⟩ (.obj [("content", "x")]) "boom"
      11 "iso").1 rfl,
   (dead_letter_record_headers ⟨true⟩ rfl ⟨"error", 1⟩
      ⟨some [("x-retry-count", .int 3)], none, none, none⟩
      (.obj [("content", "x")]) "boom" 11 "iso").2.2.1
      [("x-retry-count", .int 3)] (.int 3) 3 rfl (by decide) rfl⟩

/-- C10: the republished retry message carries exactly the three headers
x-retry-count, x-original-routing-key and x-retry-delay (any incoming
headers are discarded), is persistent (delivery_mode 2), and of the other
properties only correlation_id and reply_to are copied through. -/
theorem retry_publish_properties (ch : Channel) (h : ch.is_open = true)
    (method : Method) (properties : Properties) (body : Body) (rc : Int) :
    publishesOf (send_to_retry_queue ch method properties body rc).2
      = [.publish "direct_logs_retry" method.routing_key body
          ⟨[("x-retry-count", .int (rc + 1)),
            ("x-original-routing-key", .str method.routing_key),
            ("x-retry-delay", .int (delay_for rc.toNat))], 2,
           properties.correlation_id, properties.reply_to, none⟩] := by
  rcases ch with ⟨o⟩
  cases o
  · cases h
  · rfl

/-- Witness for C10: incoming extra headers and content type are dropped,
correlation_id and reply_to are kept. -/
theorem retry_publish_properties_witness :
    publishesOf (send_to_retry_queue ⟨true⟩ ⟨"warning", 4⟩
        ⟨some [("custom", .str "kept?")], some "cid", some "rq",
          some "application/json"⟩ (.obj [("content", "temporary_error")])
        1).2
      = [.publish "direct_logs_retry" "warning"
          (.obj [("content", "temporary_error")])
          ⟨[("x-retry-count", .int 2),
            ("x-original-routing-key", .str "warning"),
            ("x-retry-delay", .int (delay_for 1))], 2,
           some "cid", some "rq", none⟩] :=
  retry_publish_properties ⟨true⟩ rfl ⟨"warning", 4⟩
    ⟨some [("custom", .str "kept?")], some "cid", some "rq",
      some "application/json"⟩ (.obj [("content", "temporary_error")]) 1
